import Mathlib

/-!
# Verification of the automate-py render pipeline

A shallow embedding, in Lean, of the parts of the `automate-py` video
rendering service that the specification talks about:

* the audio/video synchronization planner of `src/utils/worker.py`
  (`process_job`, generated-images branch),
* the crossfade-aware gapped narration of
  `src/services/tts_service.py` (`create_gapped_audio`),
* the xfade stitching of `src/services/video_renderer.py`
  (`create_video_from_images`),
* the subtitle timing computation of
  `src/services/subtitle_service.py`
  (`generate_subtitles_with_extended_durations`),
* the job store and status updates of `src/utils/job_manager.py`,
* the API boundary of `src/api/routes.py`,
* the webhook retry loop of `src/services/webhook_service.py`,
* the step state machine of `src/utils/worker.py` (`process_job`).

Durations are modelled as rationals; every constant appearing in the
source (`0.25`, `0.5`, `0.75`, ...) is an exact dyadic rational, so the
rational model computes the same values as Python's binary floats on the
inputs considered here.
-/

namespace AutomatePy

/-! ## Constants (src/utils/constants.py) -/

/-- `VIDEO_CROSSFADE_DURATION = 0.5` (constants.py line 17). -/
def VIDEO_CROSSFADE_DURATION : ℚ := 1/2

/-- `WEBHOOK_RETRY_ATTEMPTS = 1` (constants.py line 35). -/
def WEBHOOK_RETRY_ATTEMPTS : Nat := 1

/-- `MAX_SCRIPT_LENGTH = 50000` (constants.py line 6). -/
def MAX_SCRIPT_LENGTH : Nat := 50000

/-! ## SyncPlanner (worker.py, `process_job` lines 230-266)

In `generated_images` mode the worker computes, for each segment, an
extended display duration from the measured narration duration. -/

/-- `lead_time = 0.25` (worker.py line 231). -/
def lead_time : ℚ := 1/4

/-- `linger_time = 0.5` (worker.py line 232). -/
def linger_time : ℚ := 1/2

/-- The adaptive buffer of worker.py lines 256-261: `0.75` for
sentences shorter than 3s, `0.5` below 6s, `0.25` otherwise. -/
def adaptive_buffer (audio_duration : ℚ) : ℚ :=
  if audio_duration < 3 then 3/4
  else if audio_duration < 6 then 1/2
  else 1/4

/-- `extended_duration = audio_duration + lead_time + adaptive_buffer + linger_time`
(worker.py line 263). -/
def extended_duration (audio_duration : ℚ) : ℚ :=
  audio_duration + lead_time + adaptive_buffer audio_duration + linger_time

/-- The per-segment durations the planner appends (worker.py lines 247-264). -/
def plan_durations (ds : List ℚ) : List ℚ := ds.map extended_duration

/-- `target_duration = sum(img_durations)` (worker.py line 335): the total the
pipeline logs as the video duration and passes to `audio_mixer.mix_audio`. -/
def target_duration (img_durations : List ℚ) : ℚ := img_durations.sum

/-- The display-timeline total of the stitched output:
`sum(extended) - (n-1) * VIDEO_CROSSFADE_DURATION`. -/
def display_total (extended : List ℚ) : ℚ :=
  extended.sum - ((extended.length - 1 : ℕ) : ℚ) * VIDEO_CROSSFADE_DURATION

/-! ## Gapped narration audio (tts_service.py, `create_gapped_audio` lines 105-204)

For segment `i` (given as a pair of its extended duration and its measured
sentence-audio duration) the filter chain is
`adelay=lead_time, apad=whole_dur=effective_dur`, where
`effective_dur = extended_dur - VIDEO_CROSSFADE_DURATION` for every segment
except the last (lines 159-163).  `adelay` prepends `lead` seconds of
silence and `apad=whole_dur=e` pads the result up to `e` seconds (it does
nothing when the input is already longer), so the segment's length is
`max (lead + audio) effective_dur`; the segments are then concatenated. -/

/-- Length of one gapped-audio segment. -/
def gapped_segment (lead : ℚ) (isLast : Bool) (ext d : ℚ) : ℚ :=
  max (lead + d) (if isLast then ext else ext - VIDEO_CROSSFADE_DURATION)

/-- Total length of the gapped narration produced by `create_gapped_audio`
on a list of (extended duration, measured audio duration) pairs. -/
def gapped_audio_len (lead : ℚ) : List (ℚ × ℚ) → ℚ
  | [] => 0
  | [(ext, d)] => gapped_segment lead true ext d
  | (ext, d) :: p :: rest => gapped_segment lead false ext d + gapped_audio_len lead (p :: rest)

/-! ## Xfade stitching (video_renderer.py, `create_video_from_images` lines 500-620)

Segment `i` is rendered `durations[i]` seconds long (line 542); the loop at
lines 576-594 chains `xfade` filters whose offsets accumulate
`durations[i-1] - crossfade_dur`; the output of an `xfade` at offset `o`
between a first input and a second input of length `d` lasts `o + d`
seconds. -/

/-- The final transition offset computed by the loop at lines 576-594:
fold of `acc + d - VIDEO_CROSSFADE_DURATION` over all but the last
duration, starting from `0`. -/
def xfade_final_offset (ds : List ℚ) : ℚ :=
  ds.dropLast.foldl (fun acc d => acc + d - VIDEO_CROSSFADE_DURATION) 0

/-- Duration of `combined_segments.mp4`: for a single segment the file is
copied unchanged (lines 557-563); otherwise the last xfade output lasts
final offset + last segment duration. -/
def combined_video_duration (ds : List ℚ) : ℚ :=
  match ds.getLast? with
  | none => 0
  | some dlast => xfade_final_offset ds + dlast

/-! ## Subtitle timing
(subtitle_service.py, `generate_subtitles_with_extended_durations` lines 65-211)

The timing part of the function measures each sentence WAV with ffprobe
(`measured` below, `none` for a missing file or a failed probe), fills
missing entries from the whole-narration clip length (`voice_total`,
`none` when `voice.wav` is itself unavailable), and then lays the
windows out contiguously from 0.  The `extended_durations` and
`lead_time` parameters are received (and are in this embedding) but —
exactly as in the source — never used in the timing computation. -/

/-- `_sentence_weight` (subtitle_service.py lines 250-253):
`max(len(sentence.split()), 1)`. -/
def sentence_weight (sentence : String) : Nat :=
  max ((sentence.split Char.isWhitespace).filter (fun w => w ≠ "")).length 1

/-- Indices whose sentence audio is missing or unreadable
(`missing_indices`, lines 144-157). -/
def missing_indices (measured : List (Option ℚ)) : List Nat :=
  (measured.enum.filter (fun p => p.2.isNone)).map Prod.fst

/-- `known_total = sum(d for d in durations if d is not None)` (line 170). -/
def known_total (measured : List (Option ℚ)) : ℚ :=
  (measured.map (fun d => d.getD 0)).sum

/-- The word-count weights of the missing sentences (line 179). -/
def missing_weights (sentences : List String) (measured : List (Option ℚ)) : List Nat :=
  (missing_indices measured).map (fun i => sentence_weight ((sentences.get? i).getD ""))

/-- `total_weight = sum(weights)` (line 180). -/
def total_weight (sentences : List String) (measured : List (Option ℚ)) : Nat :=
  (missing_weights sentences measured).sum

/-- Lines 181-183: when `total_weight <= 0` every weight is replaced by 1
(unreachable for `_sentence_weight`, which is at least 1, but modelled). -/
def eff_weight (sentences : List String) (measured : List (Option ℚ)) (i : Nat) : Nat :=
  if total_weight sentences measured = 0 then 1
  else sentence_weight ((sentences.get? i).getD "")

/-- The denominator used for the proportional split (lines 181-183, 190-191). -/
def eff_total_weight (sentences : List String) (measured : List (Option ℚ)) : Nat :=
  if total_weight sentences measured = 0 then (missing_indices measured).length
  else total_weight sentences measured

/-- `remaining = max(fallback_total - known_total, 0.0)` (line 178). -/
def remaining_duration (measured : List (Option ℚ)) (voice_total : ℚ) : ℚ :=
  max (voice_total - known_total measured) 0

/-- The duration assigned to index `i` by lines 159-198: a measured value
is kept; a missing one falls back to 5.0 when no voiceover length is
known (lines 171-176), to the whole-clip average when the clamped
remainder is zero (lines 185-188), and otherwise to the remainder split
proportionally to word counts (lines 189-191). -/
def resolved_at (sentences : List String) (measured : List (Option ℚ))
    (voice_total : Option ℚ) (i : Nat) : ℚ :=
  match (measured.get? i).getD none with
  | some d => d
  | none =>
    match voice_total with
    | none => 5
    | some total =>
      let remaining := remaining_duration measured total
      if remaining ≤ 0 then total / ((max sentences.length 1 : Nat) : ℚ)
      else remaining * ((eff_weight sentences measured i : ℚ)
            / ((eff_total_weight sentences measured : Nat) : ℚ))

/-- The per-sentence durations after the fallback (the `durations` array as
used by the final loop at lines 197-205). -/
def resolve_durations (sentences : List String) (measured : List (Option ℚ))
    (voice_total : Option ℚ) : List ℚ :=
  (List.range sentences.length).map (resolved_at sentences measured voice_total)

/-- The contiguous layout of the final loop (lines 197-205):
`current_time` starts at 0 and each sentence occupies
`(current_time, current_time + duration)`. -/
def timings_from (t : ℚ) : List ℚ → List (ℚ × ℚ)
  | [] => []
  | d :: rest => (t, t + d) :: timings_from (t + d) rest

/-- The (start, end) windows written to the ASS file. -/
def subtitle_timings (ds : List ℚ) : List (ℚ × ℚ) := timings_from 0 ds

/-- The timing behaviour of `generate_subtitles_with_extended_durations`:
the `extended_durations` and `lead` arguments are accepted but, as in the
source (which binds them and never reads them in the timing loop), do not
influence the produced windows. -/
def generate_sub_timings (sentences : List String) (extended_durations : List ℚ)
    (lead : ℚ) (measured : List (Option ℚ)) (voice_total : Option ℚ) :
    List (ℚ × ℚ) :=
  subtitle_timings (resolve_durations sentences measured voice_total)

/-! ## Job records and status updates (src/utils/job_manager.py) -/

/-- The mutable fields of a `JobStatus` record (job_manager.py lines 16-28),
timestamps omitted. -/
structure JobStatusRec where
  status : String
  step : Option String := none
  voice_url : Option String := none
  subtitles_url : Option String := none
  video_url : Option String := none
  thumbnail_url : Option String := none
  error : Option String := none
deriving DecidableEq

/-- The arguments of one `JobManager.update_job_status` call
(job_manager.py lines 209-220). -/
structure StatusUpdate where
  status : String
  step : Option String := none
  voice_url : Option String := none
  subtitles_url : Option String := none
  video_url : Option String := none
  thumbnail_url : Option String := none
  error : Option String := none
  clear_error : Bool := false
deriving DecidableEq

/-- `if x is not None: field = x` — keep the old value unless a new one is
given. -/
def override (new old : Option String) : Option String :=
  match new with
  | some v => some v
  | none => old

/-- The body of `JobManager.update_job_status` once the record is known to
exist (job_manager.py lines 237-258): status is always overwritten, the
optional fields only when a value is supplied, and the error is cleared
when a non-error status arrives without an error argument. -/
def apply_update (rec : JobStatusRec) (u : StatusUpdate) : JobStatusRec :=
  let clear :=
    if u.error = none ∧ (u.status = "queued" ∨ u.status = "processing" ∨ u.status = "completed")
    then true else u.clear_error
  { status := u.status
    step := override u.step rec.step
    voice_url := override u.voice_url rec.voice_url
    subtitles_url := override u.subtitles_url rec.subtitles_url
    video_url := override u.video_url rec.video_url
    thumbnail_url := override u.thumbnail_url rec.thumbnail_url
    error :=
      match u.error with
      | some e => some e
      | none => if clear then none else rec.error }

/-- The job store: the `job_statuses` dict together with the SQLite rows,
which `update_job_status` keeps in lockstep (the function returns before
touching either when the id is unknown). -/
abbrev JobStore := List (String × JobStatusRec)

/-- `JobManager.update_job_status` at store level (job_manager.py lines
209-272): an unknown `job_id` is logged and the call returns without any
write (lines 233-235). -/
def update_job_status (store : JobStore) (job_id : String) (u : StatusUpdate) :
    JobStore :=
  match store.lookup job_id with
  | none => store
  | some _ => store.map (fun p => if p.1 = job_id then (p.1, apply_update p.2 u) else p)

/-! ## The worker's step guard (worker.py, `process_job` lines 86-130)

`process_job` keeps a local `step_index`, initialised from the stored step
marker, and its `_update_status` closure drops the `step` argument of any
update whose position in `step_order` is not strictly later (unknown
names, including the literal `"processing"`, map to 0). -/

/-- The `step_order` dict (worker.py lines 86-100). -/
def step_order : List (String × Nat) :=
  [("script", 1), ("voiceover", 2), ("voiceover_uploaded", 3),
   ("voiceover_webhooked", 4), ("images", 5), ("video_dimensions", 6),
   ("subtitles", 7), ("mix_audio", 8), ("render_video", 9),
   ("assets_uploaded", 10), ("thumbnail", 11), ("video_completed", 12),
   ("completed", 13)]

/-- `step_order.get(name, 0)` (worker.py lines 110, 120). -/
def step_order_get (s : String) : Nat := (step_order.lookup s).getD 0

/-- The canonical position of a stored step marker (`none` counts as 0,
like the empty string at worker.py line 109). -/
def step_val : Option String → Nat
  | none => 0
  | some s => step_order_get s

/-- The worker's view of one job: the local `step_index` plus the job's
stored record. -/
structure WorkerView where
  step_index : Nat
  record : JobStatusRec
deriving DecidableEq

/-- `_update_status` (worker.py lines 116-130) followed by the store write:
a step that is unknown or not strictly later than `step_index` is replaced
by `None` before `update_job_status` runs, so the stored marker is kept. -/
def update_status (st : WorkerView) (u : StatusUpdate) : WorkerView :=
  match u.step with
  | none => { st with record := apply_update st.record u }
  | some s =>
    let v := step_order_get s
    if v ≤ st.step_index then
      { st with record := apply_update st.record { u with step := none } }
    else
      { step_index := v, record := apply_update st.record u }

/-- Worker start-up (worker.py lines 109-110): `step_index` is read off the
stored step marker. -/
def init_view (rec : JobStatusRec) : WorkerView :=
  { step_index := step_order_get (rec.step.getD ""), record := rec }

/-- A sequence of `_update_status` calls. -/
def run_updates (st : WorkerView) (us : List StatusUpdate) : WorkerView :=
  us.foldl update_status st

/-- The invariant `_update_status` maintains: the stored marker's position
never exceeds the worker's local `step_index`. -/
def step_inv (st : WorkerView) : Prop :=
  step_val st.record.step ≤ st.step_index

/-! ## The API boundary (src/api/routes.py) -/

/-- The fields of a `/render` request the handler inspects
(routes.py lines 40-55). -/
structure RenderRequest where
  script : String
  base_video_url : String
  bgm_url : Option String := none
  title : Option String := none
deriving DecidableEq

/-- The `job_id`/`status` pair of the immediate `/render` response
(routes.py lines 274-277). -/
structure QueuedResponse where
  job_id : String
  status : String
deriving DecidableEq

/-- The in-process manager state: the `job_statuses` store and the FIFO
`job_queue` (of job ids). -/
structure ManagerState where
  statuses : JobStore
  queue : List String
deriving DecidableEq

/-- The body of the async `JobManager.add_job` (job_manager.py lines
156-176) — what runs when the coroutine is awaited: a fresh `queued`
record is stored and the job is pushed onto the queue. -/
def add_job (st : ManagerState) (job_id : String) : ManagerState :=
  { statuses := (job_id, { status := "queued" }) :: st.statuses
    queue := st.queue ++ [job_id] }

/-- Python's `str.startswith`, computed on the character list. -/
def py_startswith (s pre : String) : Bool :=
  pre.data.isPrefixOf s.data

/-- Python's `str.strip()`: drop leading and trailing whitespace. -/
def py_strip (s : String) : String :=
  String.mk (((s.data.dropWhile Char.isWhitespace).reverse.dropWhile
    Char.isWhitespace).reverse)

/-- URL validation of routes.py lines 244-254. -/
def valid_media_url (url : String) : Bool :=
  py_startswith url "http://" || py_startswith url "https://" || py_startswith url "s3://"

/-- A handler outcome: a response or an `HTTPException` with a status code. -/
inductive HttpResult (α : Type) where
  | ok (a : α)
  | httpError (code : Nat) (detail : String)
deriving DecidableEq

/-- `render_video` (`POST /render`, routes.py lines 220-277).  After
validation the handler evaluates `job_manager.add_job(job)` — an async
method called without `await` (line 269).  In Python this expression only
builds a coroutine object, which is dropped without ever being awaited,
so the body of `add_job` never runs: no record is stored and nothing is
enqueued; the handler then returns `job_id` with status `"queued"`. -/
def render_video (st : ManagerState) (job_id : String) (req : RenderRequest) :
    ManagerState × HttpResult QueuedResponse :=
  if MAX_SCRIPT_LENGTH < req.script.length then
    (st, .httpError 400 "Script too long")
  else if (py_strip req.script).length = 0 then
    (st, .httpError 400 "Script cannot be empty")
  else if ¬ valid_media_url req.base_video_url then
    (st, .httpError 400 "base_video_url must be HTTP/HTTPS or s3://bucket/key")
  else if (match req.bgm_url with
           | some u => ! valid_media_url u
           | none => false) then
    (st, .httpError 400 "bgm_url must be HTTP/HTTPS or s3://bucket/key")
  else
    -- the coroutine `add_job(job)` is created here and never awaited
    (st, .ok { job_id := job_id, status := "queued" })

/-- The runtime value bound by `job_status = job_manager.get_job_status(job_id)`
at routes.py line 506: the method is async and the call is not awaited, so
the bound value is a coroutine object, never a `JobStatus` and never `None`. -/
inductive PyStatusValue where
  | coroutine
  | record (rec : JobStatusRec)
  | pynone
deriving DecidableEq

/-- Python truthiness of the bound value: a coroutine object and a record
are truthy, `None` is falsy. -/
def py_truthy : PyStatusValue → Bool
  | .coroutine => true
  | .record _ => true
  | .pynone => false

/-- Outcome of `GET /status/{job_id}`: the record's fields, a 404, or the
500 produced when an uncaught `AttributeError` escapes the handler. -/
inductive StatusRouteResult where
  | ok (rec : JobStatusRec)
  | notFound
  | attributeError
deriving DecidableEq

/-- `get_job_status` (`GET /status/{job_id}`, routes.py lines 498-519).
Line 506 calls the async `JobManager.get_job_status` without `await`, so
`job_status` is a coroutine object: the `if not job_status` 404 branch is
unreachable (a coroutine is truthy), and the subsequent attribute accesses
(`job_status.job_id`, ...) raise `AttributeError`, which FastAPI reports
as a 500. -/
def get_status_route (st : ManagerState) (job_id : String) : StatusRouteResult :=
  let job_status : PyStatusValue := .coroutine
  if py_truthy job_status = false then .notFound
  else
    match job_status with
    | .record rec => .ok rec
    | _ => .attributeError

/-- For contrast: the body of the async `JobManager.get_job_status`
(job_manager.py lines 178-188) as it behaves when awaited —
`job_statuses.get(job_id)`. -/
def get_status_awaited (st : ManagerState) (job_id : String) :
    Option JobStatusRec :=
  st.statuses.lookup job_id

/-! ## Webhook delivery (src/services/webhook_service.py, lines 127-173)

`_send_webhook` loops over at most `max(1, WEBHOOK_RETRY_ATTEMPTS + 1)`
attempts; every exception and every non-2xx response is caught inside the
loop, so the coroutine always returns normally.  An attempt oracle maps
the attempt number to whether that attempt got a 2xx response. -/

/-- `max_attempts = max(1, WEBHOOK_RETRY_ATTEMPTS + 1)` (line 140). -/
def max_webhook_attempts : Nat := max 1 (WEBHOOK_RETRY_ATTEMPTS + 1)

/-- The retry loop (lines 142-173), fuelled by the remaining attempts;
returns (attempts made, delivered?). -/
def send_webhook_loop (outcome : Nat → Bool) : Nat → Nat → Nat × Bool
  | attempt, 0 => (attempt, false)
  | attempt, fuel + 1 =>
    if outcome (attempt + 1) then (attempt + 1, true)
    else send_webhook_loop outcome (attempt + 1) fuel

/-- `_send_webhook`: skipped entirely when no webhook URL is configured
(lines 136-138), otherwise the bounded retry loop.  A total function: the
call never raises, whatever the attempt outcomes. -/
def send_webhook (configured : Bool) (outcome : Nat → Bool) : Nat × Bool :=
  if configured then send_webhook_loop outcome 0 max_webhook_attempts
  else (0, false)

/-! ## The step state machine (worker.py, `process_job` lines 62-537)

A step-level model of `process_job` for a fresh base-video-mode job (no
prior checkpoint, 16:9 output).  Each external collaborator call that can
raise is an oracle outcome; webhook deliveries are attempt oracles that —
per `_send_webhook` — cannot raise.  The single `try/except` around the
whole pipeline (lines 102-531) maps any step error to the `failed` update
of line 503, which passes no `step` argument; the thumbnail block has its
own `try/except` (lines 425-449) that only logs. -/

/-- Outcome of one fallible collaborator call. -/
inductive StepResult where
  | ok
  | error (msg : String)
deriving DecidableEq

/-- The fallible operations of one fresh base-video job, in program order. -/
structure PipelineOracle where
  script_sentences : Nat
  voiceover : StepResult
  voice_upload : StepResult
  subtitles : StepResult
  mixing : StepResult
  rendering : StepResult
  assets_upload : StepResult
  thumbnail : StepResult
deriving DecidableEq

/-- A job as created by submission: `queued`, no step, no artifacts. -/
def fresh_rec : JobStatusRec := { status := "queued" }

/-- The `except` branch (worker.py lines 500-531):
`update_job_status(job_id, "failed", error=...)` — no `step` argument, so
the marker is untouched — followed by a best-effort failure webhook. -/
def fail_job (st : WorkerView) (msg : String) (wfail : Nat → Bool) : WorkerView :=
  let _sent := send_webhook true wfail
  { st with record := apply_update st.record { status := "failed", error := some msg } }

/-- `process_job` on a fresh base-video job.  `wvoice`, `wdone`, `wfail`
are the attempt oracles of the voiceover-uploaded, completion and failure
webhooks. -/
def process_job (o : PipelineOracle) (wvoice wdone wfail : Nat → Bool) :
    WorkerView :=
  let st := init_view fresh_rec
  -- line 156: step "processing" is not in step_order, so the guard drops it
  let st := update_status st { status := "processing", step := some "processing" }
  let st := update_status st { status := "processing", step := some "script" }
  if o.script_sentences = 0 then
    fail_job st "Script processing resulted in no sentences" wfail
  else
    let st := update_status st { status := "processing", step := some "voiceover" }
    match o.voiceover with
    | .error m => fail_job st m wfail
    | .ok =>
      match o.voice_upload with
      | .error m => fail_job st m wfail
      | .ok =>
        let st := update_status st
          { status := "processing", step := some "voiceover_uploaded",
            voice_url := some "s3://voice" }
        let _w1 := send_webhook true wvoice
        let st := update_status st
          { status := "processing", step := some "voiceover_webhooked",
            voice_url := some "s3://voice" }
        let st := update_status st
          { status := "processing", step := some "video_dimensions" }
        let st := update_status st { status := "processing", step := some "subtitles" }
        match o.subtitles with
        | .error m => fail_job st m wfail
        | .ok =>
          let st := update_status st { status := "processing", step := some "mix_audio" }
          match o.mixing with
          | .error m => fail_job st m wfail
          | .ok =>
            let st := update_status st
              { status := "processing", step := some "render_video" }
            match o.rendering with
            | .error m => fail_job st m wfail
            | .ok =>
              match o.assets_upload with
              | .error m => fail_job st m wfail
              | .ok =>
                let st := update_status st
                  { status := "processing", step := some "assets_uploaded",
                    voice_url := some "s3://voice",
                    subtitles_url := some "s3://subs",
                    video_url := some "s3://video" }
                -- thumbnail step: marker first (line 424), then the inner try
                let st := update_status st
                  { status := "processing", step := some "thumbnail" }
                let st :=
                  match o.thumbnail with
                  | .error _ => st  -- caught at lines 448-449: warning only
                  | .ok => update_status st
                      { status := "processing", step := some "thumbnail",
                        thumbnail_url := some "s3://thumb" }
                let _w2 := send_webhook true wdone
                let st := update_status st
                  { status := "processing", step := some "video_completed" }
                update_status st
                  { status := "completed", step := some "completed",
                    voice_url := some "s3://voice",
                    subtitles_url := some "s3://subs",
                    video_url := some "s3://video",
                    thumbnail_url :=
                      match o.thumbnail with
                      | .ok => some "s3://thumb"
                      | .error _ => none }

/-- The (status, error, step) triple of a job record after processing:
the fields the failure contract of §4.3/§7 constrains. -/
def outcome_triple (st : WorkerView) : String × Option String × Option String :=
  (st.record.status, st.record.error, st.record.step)

/-! ### Arithmetic facts about the planner and the stitching -/

theorem adaptive_buffer_pos (d : ℚ) : (1/4 : ℚ) ≤ adaptive_buffer d := by
  unfold adaptive_buffer
  split_ifs <;> norm_num

theorem extended_duration_eq (d : ℚ) :
    extended_duration d = lead_time + d + adaptive_buffer d + linger_time := by
  unfold extended_duration
  ring

theorem foldl_offset (l : List ℚ) (a : ℚ) :
    l.foldl (fun acc d => acc + d - VIDEO_CROSSFADE_DURATION) a
      = a + l.sum - (l.length : ℚ) * VIDEO_CROSSFADE_DURATION := by
  induction l generalizing a with
  | nil => simp
  | cons x xs ih =>
    simp only [List.foldl_cons, List.sum_cons, List.length_cons, ih]
    push_cast
    ring

theorem combined_video_duration_eq (ds : List ℚ) (h : ds ≠ []) :
    combined_video_duration ds = display_total ds := by
  obtain ⟨init, dlast, rfl⟩ : ∃ init dlast, ds = init ++ [dlast] := by
    rcases ds.eq_nil_or_concat with h0 | ⟨init, dlast, rfl⟩
    · exact absurd h0 h
    · exact ⟨init, dlast, List.concat_eq_append init dlast⟩
  unfold combined_video_duration xfade_final_offset display_total
  rw [List.getLast?_concat]
  simp only [List.dropLast_concat, foldl_offset, List.sum_append, List.sum_cons,
    List.sum_nil, List.length_append, List.length_cons, List.length_nil]
  have hlen : (init.length + (0 + 1) - 1 : ℕ) = init.length := by omega
  rw [hlen]
  ring

theorem gapped_audio_len_eq (lead : ℚ) (pairs : List (ℚ × ℚ))
    (hplan : ∀ p ∈ pairs, lead + p.2 + 3/4 ≤ p.1) :
    gapped_audio_len lead pairs = display_total (pairs.map Prod.fst) := by
  induction pairs with
  | nil => simp [gapped_audio_len, display_total]
  | cons hd tl ih =>
    match tl, hd with
    | [], (ext, d) =>
      have hle : lead + d ≤ ext := by
        have := hplan (ext, d) (by simp)
        simpa using by linarith
      simp only [gapped_audio_len, gapped_segment, if_pos, List.map_cons, List.map_nil,
        display_total, List.sum_cons, List.sum_nil, List.length_cons, List.length_nil]
      rw [max_eq_right hle]
      norm_num
    | p :: rest, (ext, d) =>
      have hmem : (ext, d) ∈ (ext, d) :: p :: rest := by simp
      have h1 := hplan (ext, d) hmem
      have hle : lead + d ≤ ext - VIDEO_CROSSFADE_DURATION := by
        simp only [VIDEO_CROSSFADE_DURATION]
        simp only at h1
        linarith
      have ihtl : gapped_audio_len lead (p :: rest)
          = display_total ((p :: rest).map Prod.fst) :=
        ih (fun q hq => hplan q (List.mem_cons_of_mem _ hq))
      simp only [gapped_audio_len, gapped_segment, if_neg (by simp : ¬ (false = true)), ihtl]
      rw [max_eq_right hle]
      simp only [display_total, List.map_cons, List.sum_cons, List.length_cons,
        List.length_map]
      have hlen1 : (rest.length + 1 + 1 - 1 : ℕ) = rest.length + 1 := by omega
      have hlen2 : (rest.length + 1 - 1 : ℕ) = rest.length := by omega
      rw [hlen1, hlen2]
      push_cast
      ring

theorem extended_duration_bound (d : ℚ) : lead_time + d + 3/4 ≤ extended_duration d := by
  have h := adaptive_buffer_pos d
  simp only [extended_duration, lead_time, linger_time]
  linarith

/-- C2 (counterexample). The spec's worked example uses a two-tier buffer
`B(d) = 0.75 if d < 3 else 0.25` and predicts `extended = [3.5, 2.5, 5.0]`
on measured durations `[2.0, 1.0, 4.0]`; the planner of worker.py lines
247-264 gives `4.0` the medium buffer `0.5`, so it computes
`[3.5, 2.5, 5.25]`, and the crossfade-adjusted total is `10.25`, not
`10.0`. -/
theorem planner_buffer_counterexample :
    plan_durations [2, 1, 4] = [7/2, 5/2, 21/4] ∧
    plan_durations [2, 1, 4] ≠ [7/2, 5/2, 5] ∧
    display_total (plan_durations [2, 1, 4]) = 41/4 ∧
    (41/4 : ℚ) ≠ 10 := by
  refine ⟨?_, ?_, ?_, by norm_num⟩ <;>
    norm_num [plan_durations, extended_duration, adaptive_buffer, lead_time,
      linger_time, display_total, VIDEO_CROSSFADE_DURATION]

/-- C2 (amended). The planner computes
`extended[i] = L + d[i] + B(d[i]) + G` with `L = 0.25`, `G = 0.5` and the
three-tier adaptive buffer `B(d) = 0.75 if d < 3 else (0.5 if d < 6 else
0.25)`, which gives shorter segments a longer buffer; on `[2.0, 1.0, 4.0]`
the computed extended durations are `[3.5, 2.5, 5.25]` and the
crossfade-adjusted total is `3.5 + 2.5 + 5.25 - 2*0.5 = 10.25`. -/
theorem planner_formula_and_example :
    (∀ d : ℚ, extended_duration d = lead_time + d + adaptive_buffer d + linger_time) ∧
    Antitone adaptive_buffer ∧
    plan_durations [2, 1, 4] = [7/2, 5/2, 21/4] ∧
    display_total (plan_durations [2, 1, 4]) = 41/4 := by
  refine ⟨fun d => extended_duration_eq d, ?_, ?_, ?_⟩
  · intro a b hab
    unfold adaptive_buffer
    split_ifs <;> linarith
  all_goals
    norm_num [plan_durations, extended_duration, adaptive_buffer, lead_time,
      linger_time, display_total, VIDEO_CROSSFADE_DURATION]

/-- C1 (counterexample). On the planner's own output for measured
durations `[2.0, 1.0, 4.0]` — extended durations `[3.5, 2.5, 5.25]` — the
gapped narration audio and the xfade-stitched video both last
`sum(extended) - (n-1)*0.5 = 10.25` seconds, but the total the pipeline
reports and passes to audio mixing (worker.py line 335) is the plain sum
`11.25`: the claimed identity fails for the reported/target total. -/
theorem target_duration_counterexample :
    gapped_audio_len lead_time [(7/2, 2), (5/2, 1), (21/4, 4)] = 41/4 ∧
    combined_video_duration [7/2, 5/2, 21/4] = 41/4 ∧
    display_total [7/2, 5/2, 21/4] = 41/4 ∧
    target_duration [7/2, 5/2, 21/4] = 45/4 ∧
    target_duration [7/2, 5/2, 21/4] ≠ display_total [7/2, 5/2, 21/4] := by
  refine ⟨?_, ?_, ?_, ?_, ?_⟩ <;>
    norm_num [gapped_audio_len, gapped_segment, lead_time, max_def,
      combined_video_duration, xfade_final_offset, target_duration,
      display_total, VIDEO_CROSSFADE_DURATION]

/-- C1 (amended). For a non-empty list of segments whose extended
durations come from the planner formula, the gapped narration audio of
`create_gapped_audio` and the xfade-joined video of
`create_video_from_images` both last exactly
`sum(extended) - (n-1)*VIDEO_CROSSFADE_DURATION`; the total the pipeline
reports and uses for audio mixing, however, is `sum(extended)`, which
exceeds the stitched length by `(n-1)*VIDEO_CROSSFADE_DURATION`. -/
theorem stitched_duration_identity (pairs : List (ℚ × ℚ)) (hne : pairs ≠ [])
    (hplan : ∀ p ∈ pairs, p.1 = extended_duration p.2) :
    gapped_audio_len lead_time pairs = display_total (pairs.map Prod.fst) ∧
    combined_video_duration (pairs.map Prod.fst) = display_total (pairs.map Prod.fst) ∧
    target_duration (pairs.map Prod.fst)
      = display_total (pairs.map Prod.fst)
        + ((pairs.length - 1 : ℕ) : ℚ) * VIDEO_CROSSFADE_DURATION := by
  refine ⟨?_, ?_, ?_⟩
  · refine gapped_audio_len_eq lead_time pairs (fun p hp => ?_)
    rw [hplan p hp]
    exact extended_duration_bound p.2
  · refine combined_video_duration_eq _ (fun hmap => hne ?_)
    exact List.map_eq_nil_iff.mp hmap
  · simp only [target_duration, display_total, List.length_map]
    ring

/-- Witness for `stitched_duration_identity` at the planner output for
measured durations `[2.0, 1.0, 4.0]`. -/
theorem stitched_duration_identity_witness :
    gapped_audio_len lead_time [(7/2, 2), (5/2, 1), (21/4, 4)]
        = display_total ([((7:ℚ)/2, (2:ℚ)), (5/2, 1), (21/4, 4)].map Prod.fst) ∧
    combined_video_duration ([((7:ℚ)/2, (2:ℚ)), (5/2, 1), (21/4, 4)].map Prod.fst)
        = display_total ([((7:ℚ)/2, (2:ℚ)), (5/2, 1), (21/4, 4)].map Prod.fst) ∧
    target_duration ([((7:ℚ)/2, (2:ℚ)), (5/2, 1), (21/4, 4)].map Prod.fst)
      = display_total ([((7:ℚ)/2, (2:ℚ)), (5/2, 1), (21/4, 4)].map Prod.fst)
        + ((([((7:ℚ)/2, (2:ℚ)), (5/2, 1), (21/4, 4)].length - 1 : ℕ)) : ℚ)
            * VIDEO_CROSSFADE_DURATION :=
  stitched_duration_identity [(7/2, 2), (5/2, 1), (21/4, 4)] (by simp)
    (by
      intro p hp
      fin_cases hp <;>
        norm_num [extended_duration, adaptive_buffer, lead_time, linger_time])

/-- C3 (code_bug evaluation). `generate_subtitles_with_extended_durations`
receives the extended durations `[3.5, 2.5, 5.25]` and the lead time
`0.25` but lays the subtitle windows out from the raw measured sentence
durations `[2, 1, 4]`: the windows are `[(0,2), (2,3), (3,7)]`, ending at
`7.0`, while the display timeline of the stitched video runs to
`sum(extended) - (n-1)*0.5 = 10.25`. -/
theorem subtitle_windows_counterexample :
    generate_sub_timings ["First line.", "Second.", "Third line here."]
        [7/2, 5/2, 21/4] (1/4) [some 2, some 1, some 4] (some 7)
      = [(0, 2), (2, 3), (3, 7)] ∧
    display_total [7/2, 5/2, 21/4] = 41/4 ∧
    ((7 : ℚ)) ≠ display_total [7/2, 5/2, 21/4] := by
  refine ⟨?_, ?_, ?_⟩ <;>
    norm_num [generate_sub_timings, subtitle_timings, timings_from,
      resolve_durations, resolved_at, List.range_succ, display_total,
      VIDEO_CROSSFADE_DURATION]

/-! ### The duration fallback for missing sentence audio -/

theorem sentence_weight_pos (s : String) : 1 ≤ sentence_weight s := le_max_right _ _

theorem mem_missing_indices {measured : List (Option ℚ)} {i : Nat} :
    i ∈ missing_indices measured ↔ measured.get? i = some none := by
  unfold missing_indices
  simp only [List.mem_map, List.mem_filter]
  constructor
  · rintro ⟨⟨a, b⟩, ⟨hmem, hnone⟩, rfl⟩
    rw [List.mk_mem_enum_iff_getElem?] at hmem
    cases b with
    | none => simpa [List.get?_eq_getElem?] using hmem
    | some v => simp at hnone
  · intro h
    refine ⟨(i, none), ⟨List.mk_mem_enum_iff_getElem?.mpr ?_, rfl⟩, rfl⟩
    simpa [List.get?_eq_getElem?] using h

theorem total_weight_pos (sentences : List String) (measured : List (Option ℚ))
    (h : missing_indices measured ≠ []) : 1 ≤ total_weight sentences measured := by
  unfold total_weight
  have hlen : 1 ≤ (missing_weights sentences measured).length := by
    unfold missing_weights
    rw [List.length_map]
    exact List.length_pos.mpr h
  refine le_trans hlen (List.length_le_sum_of_one_le _ (fun w hw => ?_))
  obtain ⟨j, _, rfl⟩ := List.mem_map.mp hw
  exact sentence_weight_pos _

theorem resolved_at_missing (sentences : List String) (measured : List (Option ℚ))
    (total : ℚ) (i : Nat) (hi : i ∈ missing_indices measured) :
    resolved_at sentences measured (some total) i
      = if remaining_duration measured total ≤ 0
        then total / ((max sentences.length 1 : ℕ) : ℚ)
        else remaining_duration measured total
          * ((eff_weight sentences measured i : ℚ)
              / ((eff_total_weight sentences measured : ℕ) : ℚ)) := by
  have h := mem_missing_indices.mp hi
  simp only [resolved_at, h, Option.getD_some]

/-- C9. When some sentence durations are unavailable and the voiceover
clip length is known, the fallback of subtitle_service.py lines 159-198:
every assigned duration is non-negative; when the clamped remainder
(voiceover length minus the known durations, floored at 0) is positive it
is distributed over exactly the missing indices — their assigned
durations sum to the remainder and are proportional to the sentences'
word-count weights; when the remainder is zero every missing index gets
the whole-clip average `total / len(sentences)`. -/
theorem fallback_distribution (sentences : List String) (measured : List (Option ℚ))
    (total : ℚ) (hmeas : ∀ d ∈ measured, 0 ≤ d.getD 0) (htot : 0 ≤ total)
    (hmiss : missing_indices measured ≠ []) :
    (∀ i, 0 ≤ resolved_at sentences measured (some total) i) ∧
    (0 < remaining_duration measured total →
      ((missing_indices measured).map (resolved_at sentences measured (some total))).sum
        = remaining_duration measured total) ∧
    (remaining_duration measured total ≤ 0 →
      ∀ i ∈ missing_indices measured,
        resolved_at sentences measured (some total) i
          = total / ((max sentences.length 1 : ℕ) : ℚ)) ∧
    (0 < remaining_duration measured total →
      ∀ i ∈ missing_indices measured, ∀ j ∈ missing_indices measured,
        resolved_at sentences measured (some total) i
            * (eff_weight sentences measured j : ℚ)
          = resolved_at sentences measured (some total) j
            * (eff_weight sentences measured i : ℚ)) := by
  have htw := total_weight_pos sentences measured hmiss
  have htw_eq : eff_total_weight sentences measured = total_weight sentences measured :=
    if_neg (by omega)
  have htw_ne : ((eff_total_weight sentences measured : ℕ) : ℚ) ≠ 0 := by
    rw [htw_eq]
    exact_mod_cast (by omega : total_weight sentences measured ≠ 0)
  have hrem_nonneg : 0 ≤ remaining_duration measured total := le_max_right _ _
  refine ⟨?_, ?_, ?_, ?_⟩
  · intro i
    cases hq : (measured.get? i).getD none with
    | some d =>
      have hval : resolved_at sentences measured (some total) i = d := by
        simp only [resolved_at, hq]
      rw [hval]
      have hsome : measured.get? i = some (some d) := by
        cases hq2 : measured.get? i with
        | none => rw [hq2] at hq; simp at hq
        | some v =>
          rw [hq2] at hq
          simp only [Option.getD_some] at hq
          rw [hq]
      have := hmeas (some d) (List.get?_mem hsome)
      simpa using this
    | none =>
      simp only [resolved_at, hq]
      split_ifs with hr
      · exact div_nonneg htot (Nat.cast_nonneg _)
      · exact mul_nonneg hrem_nonneg
          (div_nonneg (Nat.cast_nonneg _) (Nat.cast_nonneg _))
  · intro hr
    have hmap : (missing_indices measured).map (resolved_at sentences measured (some total))
        = (missing_indices measured).map
            (fun i => remaining_duration measured total
              * ((eff_weight sentences measured i : ℚ)
                  / ((eff_total_weight sentences measured : ℕ) : ℚ))) :=
      List.map_congr_left (fun i hi => by
        rw [resolved_at_missing sentences measured total i hi, if_neg (not_le.mpr hr)])
    rw [hmap, List.sum_map_mul_left]
    have hsum : ((missing_indices measured).map
          (fun i => (eff_weight sentences measured i : ℚ)
            / ((eff_total_weight sentences measured : ℕ) : ℚ))).sum
        = 1 := by
      simp only [div_eq_mul_inv]
      rw [List.sum_map_mul_right]
      have hcast : ((missing_indices measured).map
            (fun i => (eff_weight sentences measured i : ℚ))).sum
          = ((total_weight sentences measured : ℕ) : ℚ) := by
        have heffw : ∀ i, eff_weight sentences measured i
            = sentence_weight ((sentences.get? i).getD "") := fun i => if_neg (by omega)
        rw [List.map_congr_left (fun i _ => by rw [heffw i])]
        rw [show total_weight sentences measured = (missing_weights sentences measured).sum
              from rfl,
            Nat.cast_list_sum]
        rw [show (missing_weights sentences measured).map (Nat.cast (R := ℚ))
              = (missing_indices measured).map
                  (fun i => (sentence_weight ((sentences.get? i).getD "") : ℚ)) by
            rw [show missing_weights sentences measured
                  = (missing_indices measured).map
                      (fun i => sentence_weight ((sentences.get? i).getD "")) from rfl]
            rw [List.map_map]
            rfl]
      rw [hcast, ← htw_eq]
      exact mul_inv_cancel₀ htw_ne
    rw [hsum, mul_one]
  · intro hr i hi
    rw [resolved_at_missing sentences measured total i hi, if_pos hr]
  · intro hr i hi j hj
    rw [resolved_at_missing sentences measured total i hi,
        resolved_at_missing sentences measured total j hj,
        if_neg (not_le.mpr hr), if_neg (not_le.mpr hr)]
    ring

/-- Witness for `fallback_distribution`: two sentences, the second one's
audio missing, whole-clip length 5s (known 2s, remainder 3s). -/
theorem fallback_distribution_witness :
    (∀ i, 0 ≤ resolved_at ["a b", "c"] [some 2, none] (some 5) i) ∧
    (0 < remaining_duration [some 2, none] 5 →
      ((missing_indices [some 2, none]).map
          (resolved_at ["a b", "c"] [some 2, none] (some 5))).sum
        = remaining_duration [some 2, none] 5) ∧
    (remaining_duration [some 2, none] 5 ≤ 0 →
      ∀ i ∈ missing_indices [some 2, none],
        resolved_at ["a b", "c"] [some 2, none] (some 5) i
          = 5 / ((max (["a b", "c"] : List String).length 1 : ℕ) : ℚ)) ∧
    (0 < remaining_duration [some 2, none] 5 →
      ∀ i ∈ missing_indices [some 2, none], ∀ j ∈ missing_indices [some 2, none],
        resolved_at ["a b", "c"] [some 2, none] (some 5) i
            * (eff_weight ["a b", "c"] [some 2, none] j : ℚ)
          = resolved_at ["a b", "c"] [some 2, none] (some 5) j
            * (eff_weight ["a b", "c"] [some 2, none] i : ℚ)) :=
  fallback_distribution ["a b", "c"] [some 2, none] 5
    (by intro d hd; fin_cases hd <;> norm_num)
    (by norm_num)
    (by decide)

/-! ### Monotonicity of the persisted step marker -/

theorem apply_update_step (rec : JobStatusRec) (u : StatusUpdate) :
    (apply_update rec u).step = override u.step rec.step := rfl

theorem step_inv_init (rec : JobStatusRec) : step_inv (init_view rec) := by
  unfold step_inv init_view
  cases hs : rec.step with
  | none => simp [step_val]
  | some s => simp [step_val, hs, step_order_get]

theorem step_inv_update (st : WorkerView) (u : StatusUpdate) (h : step_inv st) :
    step_inv (update_status st u) := by
  unfold step_inv update_status at *
  cases hs : u.step with
  | none => simpa [apply_update_step, override, hs] using h
  | some s =>
    by_cases hle : step_order_get s ≤ st.step_index
    · simpa [hle, apply_update_step, override, hs] using h
    · simp [hle, apply_update_step, override, hs, step_val]

theorem step_inv_run (st : WorkerView) (us : List StatusUpdate) (h : step_inv st) :
    step_inv (run_updates st us) := by
  induction us generalizing st with
  | nil => exact h
  | cons u rest ih => exact ih _ (step_inv_update st u h)

theorem update_status_monotone (st : WorkerView) (u : StatusUpdate) (h : step_inv st) :
    step_val st.record.step ≤ step_val (update_status st u).record.step := by
  unfold update_status
  cases hs : u.step with
  | none => simp [apply_update_step, override, hs]
  | some s =>
    by_cases hle : step_order_get s ≤ st.step_index
    · simp [hle, apply_update_step, override, hs]
    · simp only [hle, if_false, apply_update_step, override, hs]
      unfold step_inv at h
      rw [show step_val (some s) = step_order_get s from rfl]
      omega

theorem update_status_step_eq (st : WorkerView) (u : StatusUpdate) :
    (update_status st u).record.step
      = if step_val u.step ≤ st.step_index then st.record.step else u.step := by
  unfold update_status
  cases hs : u.step with
  | none => simp [step_val, apply_update_step, override, hs]
  | some s =>
    by_cases hle : step_order_get s ≤ st.step_index
    · simp [hle, step_val, apply_update_step, override, hs]
    · simp [hle, step_val, apply_update_step, override, hs]

/-- C4. Over any run of `_update_status` calls from any starting record,
the persisted step marker is monotonically non-decreasing in the
`step_order` position, and one more update overwrites the stored marker
exactly when its step name is strictly later than the worker's current
index — an equal, earlier or unknown step name (position 0) leaves the
stored marker untouched. -/
theorem step_marker_monotone (rec : JobStatusRec) (us : List StatusUpdate)
    (u : StatusUpdate) :
    step_val (run_updates (init_view rec) us).record.step
      ≤ step_val (run_updates (init_view rec) (us ++ [u])).record.step ∧
    (run_updates (init_view rec) (us ++ [u])).record.step
      = (if step_val u.step ≤ (run_updates (init_view rec) us).step_index
         then (run_updates (init_view rec) us).record.step
         else u.step) := by
  have hrun : run_updates (init_view rec) (us ++ [u])
      = update_status (run_updates (init_view rec) us) u := by
    unfold run_updates
    rw [List.foldl_append]
    rfl
  have hinv : step_inv (run_updates (init_view rec) us) :=
    step_inv_run _ us (step_inv_init rec)
  constructor
  · rw [hrun]
    exact update_status_monotone _ u hinv
  · rw [hrun]
    exact update_status_step_eq _ u

/-! ### Store updates for unknown job ids -/

/-- C10. `JobManager.update_job_status` called with a job id that has no
record returns without creating or modifying anything, whatever the
status, step, artifact and error arguments. -/
theorem update_missing_job_noop (store : JobStore) (job_id : String)
    (u : StatusUpdate) (h : store.lookup job_id = none) :
    update_job_status store job_id u = store := by
  unfold update_job_status
  rw [h]

/-- Witness for `update_missing_job_noop`: a store holding only `job-a`,
updated at `job-b` with a failing status, step, artifact and error. -/
theorem update_missing_job_noop_witness :
    update_job_status [("job-a", { status := "queued" })] "job-b"
        { status := "failed", step := some "render_video",
          video_url := some "s3://v", error := some "boom" }
      = [("job-a", { status := "queued" })] :=
  update_missing_job_noop [("job-a", { status := "queued" })] "job-b"
    { status := "failed", step := some "render_video",
      video_url := some "s3://v", error := some "boom" } (by decide)

/-! ### The submission boundary never persists the job -/

/-- C5 (code_bug evaluation). `POST /render` leaves the manager state
exactly as it was — the un-awaited `add_job` coroutine never runs — while
the body of `add_job`, had it been awaited, would have stored a fresh
`queued` record and enqueued the job; and on a valid request the handler
still answers `job_id` with status `queued`. -/
theorem render_video_never_persists (st : ManagerState) (job_id : String)
    (req : RenderRequest) :
    (render_video st job_id req).1 = st ∧
    (add_job st job_id).queue = st.queue ++ [job_id] ∧
    (add_job st job_id).statuses.lookup job_id = some { status := "queued" } ∧
    (render_video { statuses := [], queue := [] } "job-1"
        { script := "Hello.", base_video_url := "https://example.com/v.mp4" }).2
      = HttpResult.ok { job_id := "job-1", status := "queued" } ∧
    ({ statuses := [], queue := [] } : ManagerState).statuses.lookup "job-1" = none := by
  refine ⟨?_, rfl, ?_, ?_, rfl⟩
  · unfold render_video
    split_ifs <;> rfl
  · simp [add_job, List.lookup]
  · decide

/-! ### The status boundary -/

/-- C6 (code_bug evaluation). `GET /status/{job_id}` binds the un-awaited
coroutine, which is truthy, so the 404 branch is unreachable and the
attribute access raises: every query — for an existing job or a missing
one — ends in the `AttributeError` 500, never in the record and never in
`NotFound`; the awaited store lookup would have returned the record. -/
theorem status_route_always_500 (st : ManagerState) (job_id : String) :
    get_status_route st job_id = StatusRouteResult.attributeError ∧
    get_status_route st job_id ≠ StatusRouteResult.notFound ∧
    (∀ r, get_status_route st job_id ≠ StatusRouteResult.ok r) ∧
    get_status_awaited { statuses := [("job-1", fresh_rec)], queue := [] } "job-1"
      = some fresh_rec := by
  refine ⟨rfl, ?_, ?_, by decide⟩
  · intro h
    simp [get_status_route, py_truthy] at h
  · intro r h
    simp [get_status_route, py_truthy] at h

/-! ### Step failures and webhook failures in the pipeline -/

theorem send_webhook_loop_bound (outcome : Nat → Bool) (fuel attempt : Nat) :
    (send_webhook_loop outcome attempt fuel).1 ≤ attempt + fuel := by
  induction fuel generalizing attempt with
  | zero => simp [send_webhook_loop]
  | succ k ih =>
    simp only [send_webhook_loop]
    by_cases h : outcome (attempt + 1)
    · simp only [h, if_true]
      omega
    · simp only [h, if_false]
      exact le_trans (ih (attempt + 1)) (by omega)

theorem send_webhook_bounded (configured : Bool) (outcome : Nat → Bool) :
    (send_webhook configured outcome).1 ≤ max_webhook_attempts := by
  cases configured
  · simp [send_webhook]
  · simpa [send_webhook] using send_webhook_loop_bound outcome max_webhook_attempts 0

/-- C7 (counterexample). A job whose every step succeeds except thumbnail
generation still ends `completed` (with no thumbnail artifact): the inner
`try/except` of worker.py lines 425-449 swallows the error, so a
thumbnail-generation failure does yield a `completed` job. -/
theorem thumbnail_failure_still_completes :
    (process_job
        { script_sentences := 1, voiceover := .ok, voice_upload := .ok,
          subtitles := .ok, mixing := .ok, rendering := .ok,
          assets_upload := .ok, thumbnail := .error "thumbnail boom" }
        (fun _ => true) (fun _ => true) (fun _ => true)).record.status
      = "completed" ∧
    (process_job
        { script_sentences := 1, voiceover := .ok, voice_upload := .ok,
          subtitles := .ok, mixing := .ok, rendering := .ok,
          assets_upload := .ok, thumbnail := .error "thumbnail boom" }
        (fun _ => true) (fun _ => true) (fun _ => true)).record.thumbnail_url
      = none := by
  exact ⟨rfl, rfl⟩

/-- C7 (amended). Every artifact-generation error is step-fatal except a
thumbnail one: injecting an error into narration synthesis, the
voiceover upload, subtitle generation, audio mixing, rendering, or the
asset uploads each ends the job `failed` with that error recorded and
the step marker still at the step that was executing (uploads fail under
the marker of the step whose output they upload); a thumbnail-generation
error is caught and only logged (worker.py lines 425-449), so the job
still reaches `completed`, merely without a thumbnail artifact. -/
theorem artifact_errors_fatal_except_thumbnail (o : PipelineOracle) (m : String)
    (wvoice wdone wfail : Nat → Bool)
    (hok : o.script_sentences ≠ 0 ∧ o.voiceover = .ok ∧ o.voice_upload = .ok ∧
      o.subtitles = .ok ∧ o.mixing = .ok ∧ o.rendering = .ok ∧
      o.assets_upload = .ok) :
    (process_job o wvoice wdone wfail).record.status = "completed" ∧
    outcome_triple (process_job { o with voiceover := StepResult.error m }
        wvoice wdone wfail)
      = ("failed", some m, some "voiceover") ∧
    outcome_triple (process_job { o with voice_upload := StepResult.error m }
        wvoice wdone wfail)
      = ("failed", some m, some "voiceover") ∧
    outcome_triple (process_job { o with subtitles := StepResult.error m }
        wvoice wdone wfail)
      = ("failed", some m, some "subtitles") ∧
    outcome_triple (process_job { o with mixing := StepResult.error m }
        wvoice wdone wfail)
      = ("failed", some m, some "mix_audio") ∧
    outcome_triple (process_job { o with rendering := StepResult.error m }
        wvoice wdone wfail)
      = ("failed", some m, some "render_video") ∧
    outcome_triple (process_job { o with assets_upload := StepResult.error m }
        wvoice wdone wfail)
      = ("failed", some m, some "render_video") ∧
    (process_job { o with thumbnail := StepResult.error m }
        wvoice wdone wfail).record.status
      = "completed" ∧
    (process_job { o with thumbnail := StepResult.error m }
        wvoice wdone wfail).record.thumbnail_url
      = none := by
  obtain ⟨h0, h1, h2, h3, h4, h5, h6⟩ := hok
  rcases o with ⟨n, v, vu, sub, mix, ren, au, th⟩
  simp only at h0 h1 h2 h3 h4 h5 h6
  subst h1 h2 h3 h4 h5 h6
  refine ⟨?_, ?_, ?_, ?_, ?_, ?_, ?_, ?_, ?_⟩
  · cases th <;> simp only [process_job, if_neg h0] <;> rfl
  all_goals simp only [process_job, outcome_triple, if_neg h0]
  all_goals rfl

/-- C8. When every collaborator step succeeds, the job reaches
`completed` with its artifact locators recorded, whatever the webhook
attempt outcomes — including delivery failing on every attempt of every
notification — and every `_send_webhook` call makes at most
`max(1, WEBHOOK_RETRY_ATTEMPTS + 1)` attempts and returns normally. -/
theorem webhook_failures_never_fail_job (o : PipelineOracle)
    (wvoice wdone wfail : Nat → Bool)
    (hok : o.script_sentences ≠ 0 ∧ o.voiceover = .ok ∧ o.voice_upload = .ok ∧
      o.subtitles = .ok ∧ o.mixing = .ok ∧ o.rendering = .ok ∧
      o.assets_upload = .ok ∧ o.thumbnail = .ok) :
    (process_job o wvoice wdone wfail).record.status = "completed" ∧
    (process_job o wvoice wdone wfail).record.voice_url = some "s3://voice" ∧
    (process_job o wvoice wdone wfail).record.subtitles_url = some "s3://subs" ∧
    (process_job o wvoice wdone wfail).record.video_url = some "s3://video" ∧
    (process_job o wvoice wdone wfail).record.thumbnail_url = some "s3://thumb" ∧
    (process_job o wvoice wdone wfail).record.error = none ∧
    (∀ (configured : Bool) (outcome : Nat → Bool),
      (send_webhook configured outcome).1 ≤ max_webhook_attempts) := by
  obtain ⟨h0, h1, h2, h3, h4, h5, h6, h7⟩ := hok
  rcases o with ⟨n, v, vu, sub, mix, ren, au, th⟩
  simp only at h0 h1 h2 h3 h4 h5 h6 h7
  subst h1 h2 h3 h4 h5 h6 h7
  refine ⟨?_, ?_, ?_, ?_, ?_, ?_, fun c outc => send_webhook_bounded c outc⟩
  all_goals simp only [process_job]; rw [if_neg h0]
  all_goals rfl

/-- Witness for `artifact_errors_fatal_except_thumbnail` at the all-ok
oracle with error message "boom" and all-failing webhook attempts. -/
theorem artifact_errors_fatal_except_thumbnail_witness :
    (process_job
        { script_sentences := 1, voiceover := .ok, voice_upload := .ok,
          subtitles := .ok, mixing := .ok, rendering := .ok,
          assets_upload := .ok, thumbnail := .ok }
        (fun _ => false) (fun _ => false) (fun _ => false)).record.status
      = "completed" ∧
    outcome_triple (process_job
        { ({ script_sentences := 1, voiceover := .ok, voice_upload := .ok,
             subtitles := .ok, mixing := .ok, rendering := .ok,
             assets_upload := .ok, thumbnail := .ok } : PipelineOracle) with
          voiceover := StepResult.error "boom" }
        (fun _ => false) (fun _ => false) (fun _ => false))
      = ("failed", some "boom", some "voiceover") ∧
    outcome_triple (process_job
        { ({ script_sentences := 1, voiceover := .ok, voice_upload := .ok,
             subtitles := .ok, mixing := .ok, rendering := .ok,
             assets_upload := .ok, thumbnail := .ok } : PipelineOracle) with
          voice_upload := StepResult.error "boom" }
        (fun _ => false) (fun _ => false) (fun _ => false))
      = ("failed", some "boom", some "voiceover") ∧
    outcome_triple (process_job
        { ({ script_sentences := 1, voiceover := .ok, voice_upload := .ok,
             subtitles := .ok, mixing := .ok, rendering := .ok,
             assets_upload := .ok, thumbnail := .ok } : PipelineOracle) with
          subtitles := StepResult.error "boom" }
        (fun _ => false) (fun _ => false) (fun _ => false))
      = ("failed", some "boom", some "subtitles") ∧
    outcome_triple (process_job
        { ({ script_sentences := 1, voiceover := .ok, voice_upload := .ok,
             subtitles := .ok, mixing := .ok, rendering := .ok,
             assets_upload := .ok, thumbnail := .ok } : PipelineOracle) with
          mixing := StepResult.error "boom" }
        (fun _ => false) (fun _ => false) (fun _ => false))
      = ("failed", some "boom", some "mix_audio") ∧
    outcome_triple (process_job
        { ({ script_sentences := 1, voiceover := .ok, voice_upload := .ok,
             subtitles := .ok, mixing := .ok, rendering := .ok,
             assets_upload := .ok, thumbnail := .ok } : PipelineOracle) with
          rendering := StepResult.error "boom" }
        (fun _ => false) (fun _ => false) (fun _ => false))
      = ("failed", some "boom", some "render_video") ∧
    outcome_triple (process_job
        { ({ script_sentences := 1, voiceover := .ok, voice_upload := .ok,
             subtitles := .ok, mixing := .ok, rendering := .ok,
             assets_upload := .ok, thumbnail := .ok } : PipelineOracle) with
          assets_upload := StepResult.error "boom" }
        (fun _ => false) (fun _ => false) (fun _ => false))
      = ("failed", some "boom", some "render_video") ∧
    (process_job
        { ({ script_sentences := 1, voiceover := .ok, voice_upload := .ok,
             subtitles := .ok, mixing := .ok, rendering := .ok,
             assets_upload := .ok, thumbnail := .ok } : PipelineOracle) with
          thumbnail := StepResult.error "boom" }
        (fun _ => false) (fun _ => false) (fun _ => false)).record.status
      = "completed" ∧
    (process_job
        { ({ script_sentences := 1, voiceover := .ok, voice_upload := .ok,
             subtitles := .ok, mixing := .ok, rendering := .ok,
             assets_upload := .ok, thumbnail := .ok } : PipelineOracle) with
          thumbnail := StepResult.error "boom" }
        (fun _ => false) (fun _ => false) (fun _ => false)).record.thumbnail_url
      = none :=
  artifact_errors_fatal_except_thumbnail
    { script_sentences := 1, voiceover := .ok, voice_upload := .ok,
      subtitles := .ok, mixing := .ok, rendering := .ok,
      assets_upload := .ok, thumbnail := .ok }
    "boom" (fun _ => false) (fun _ => false) (fun _ => false) (by decide)

/-- Witness for `webhook_failures_never_fail_job`: every step succeeds
and every webhook attempt of every notification fails. -/
theorem webhook_failures_never_fail_job_witness :
    (process_job
        { script_sentences := 1, voiceover := .ok, voice_upload := .ok,
          subtitles := .ok, mixing := .ok, rendering := .ok,
          assets_upload := .ok, thumbnail := .ok }
        (fun _ => false) (fun _ => false) (fun _ => false)).record.status
      = "completed" ∧
    (process_job
        { script_sentences := 1, voiceover := .ok, voice_upload := .ok,
          subtitles := .ok, mixing := .ok, rendering := .ok,
          assets_upload := .ok, thumbnail := .ok }
        (fun _ => false) (fun _ => false) (fun _ => false)).record.voice_url
      = some "s3://voice" ∧
    (process_job
        { script_sentences := 1, voiceover := .ok, voice_upload := .ok,
          subtitles := .ok, mixing := .ok, rendering := .ok,
          assets_upload := .ok, thumbnail := .ok }
        (fun _ => false) (fun _ => false) (fun _ => false)).record.subtitles_url
      = some "s3://subs" ∧
    (process_job
        { script_sentences := 1, voiceover := .ok, voice_upload := .ok,
          subtitles := .ok, mixing := .ok, rendering := .ok,
          assets_upload := .ok, thumbnail := .ok }
        (fun _ => false) (fun _ => false) (fun _ => false)).record.video_url
      = some "s3://video" ∧
    (process_job
        { script_sentences := 1, voiceover := .ok, voice_upload := .ok,
          subtitles := .ok, mixing := .ok, rendering := .ok,
          assets_upload := .ok, thumbnail := .ok }
        (fun _ => false) (fun _ => false) (fun _ => false)).record.thumbnail_url
      = some "s3://thumb" ∧
    (process_job
        { script_sentences := 1, voiceover := .ok, voice_upload := .ok,
          subtitles := .ok, mixing := .ok, rendering := .ok,
          assets_upload := .ok, thumbnail := .ok }
        (fun _ => false) (fun _ => false) (fun _ => false)).record.error
      = none ∧
    (∀ (configured : Bool) (outcome : Nat → Bool),
      (send_webhook configured outcome).1 ≤ max_webhook_attempts) :=
  webhook_failures_never_fail_job
    { script_sentences := 1, voiceover := .ok, voice_upload := .ok,
      subtitles := .ok, mixing := .ok, rendering := .ok,
      assets_upload := .ok, thumbnail := .ok }
    (fun _ => false) (fun _ => false) (fun _ => false) (by decide)

end AutomatePy
